import Mathlib

/-!
Verification of the `mipt-statistics` utilities: the IQR-based outlier
detector (`tools/additionals.py`) and the distribution visualiser with its
validator and configuration setters (`tools/visualisation.py`).

Numbers are modelled as rationals, numpy scalar arrays as `List ℚ`, and a
raised Python exception as the error branch of `Except String`, carrying the
exception's message.  Only the shape of a numpy array matters to the
validator, so arrays reaching it are modelled by their shapes; an
object-dtype array holding two sub-arrays (the way numpy represents a ragged
pair of columns) is modelled by the pair of sub-array shapes.
-/

namespace MiptStat

/-- The interpolation step of `np.percentile` on an already sorted list:
take position `(n-1) * p / 100` and linearly interpolate between the
elements at the floor and the ceiling of that position. -/
def percentileOfSorted (s : List ℚ) (p : ℚ) : ℚ :=
  let n := s.length
  let pos := ((n : ℚ) - 1) * p / 100
  let lo := (⌊pos⌋).toNat
  let hi := (⌈pos⌉).toNat
  let g := pos - ⌊pos⌋
  s.getD lo 0 + g * (s.getD hi 0 - s.getD lo 0)

/-- Model of `np.percentile(values, p)` with the default linear-interpolation method:
sort, then interpolate between the closest ranks. -/
def percentile (values : List ℚ) (p : ℚ) : ℚ :=
  percentileOfSorted (values.insertionSort (· ≤ ·)) p

/-- Model of `get_boxplot_outliers(data, key)` from `tools/additionals.py`:
raise `ValueError("Empty array given")` on empty input, map `key` over the
data, return an empty array if the value array is empty, otherwise compute
the Q1/Q3 percentiles, `eps = (q3 - q1) * 1.5`, the fences `q1 - eps` and
`q3 + eps`, and return `np.nonzero` of the mask
`(values < lower) | (values > upper)`: the ascending list of indices whose
value lies strictly outside the fences. -/
def get_boxplot_outliers {α : Type} (data : List α) (key : α → ℚ) :
    Except String (List Nat) :=
  if data.length = 0 then .error "Empty array given"
  else
    let values := data.map key
    if values.length = 0 then .ok []
    else
      let q1 := percentile values 25
      let q3 := percentile values 75
      let eps := (q3 - q1) * (3 / 2 : ℚ)
      let lower := q1 - eps
      let upper := q3 + eps
      .ok ((List.range values.length).filter
        (fun i => decide (values.getD i 0 < lower ∨ upper < values.getD i 0)))

/-! ### The visualiser's data model (`tools/visualisation.py`) -/

/-- The `DiagramTypes` enumeration. -/
inductive DiagramTypes : Type
  | Violin
  | Hist
  | Boxplot
deriving DecidableEq

/-- The `AxisNames` enumeration. -/
inductive AxisNames : Type
  | X
  | Y
deriving DecidableEq

/-- An element of a Python list passed as the diagram-type argument: either a
`DiagramTypes` member or some other runtime value (described by a string). -/
inductive DiagItem : Type
  | diag (d : DiagramTypes)
  | other (desc : String)
deriving DecidableEq

/-- An element of a Python list passed as the axis argument. -/
inductive AxisItem : Type
  | axis (a : AxisNames)
  | other (desc : String)
deriving DecidableEq

/-- A runtime value passed as `diagram_type`: a single enum member, a list,
or any other value. -/
inductive DiagArg : Type
  | single (d : DiagramTypes)
  | plist (xs : List DiagItem)
  | other (desc : String)
deriving DecidableEq

/-- A runtime value passed as `diagram_axis`. -/
inductive AxisArg : Type
  | single (a : AxisNames)
  | plist (xs : List AxisItem)
  | other (desc : String)
deriving DecidableEq

/-- The check `isinstance(item, DiagramTypes)` for a list element. -/
def isDiagramTypes : DiagItem → Bool
  | .diag _ => true
  | .other _ => false

/-- The check `isinstance(item, AxisNames)` for a list element. -/
def isAxisNames : AxisItem → Bool
  | .axis _ => true
  | .other _ => false

/-- The `validate_types` expression of `validate_distribution`:
`isinstance(diagram_type, DiagramTypes) or (isinstance(diagram_type, list)
and all(isinstance(x, DiagramTypes) for x in diagram_type))`. -/
def diagArgOk : DiagArg → Bool
  | .single _ => true
  | .plist xs => xs.all isDiagramTypes
  | .other _ => false

/-- The `validate_axes` expression of `validate_distribution`. -/
def axisArgOk : AxisArg → Bool
  | .single _ => true
  | .plist xs => xs.all isAxisNames
  | .other _ => false

/-- A numpy array reduced to its shape: `size` is the product of the
dimensions and `ndim` their number. -/
structure NDArray : Type where
  shape : List Nat
deriving DecidableEq

/-- The numpy `ndarray.size` attribute. -/
def NDArray.size (a : NDArray) : Nat := a.shape.prod

/-- The numpy `ndarray.ndim` attribute. -/
def NDArray.ndim (a : NDArray) : Nat := a.shape.length

/-- The `points` argument: a regular (homogeneous) numpy array given by its
shape, an object-dtype array holding two sub-arrays (numpy's representation
of a ragged pair of columns), or a non-array value. -/
inductive Points : Type
  | regular (shape : List Nat)
  | objectPair (a b : NDArray)
  | notArray (desc : String)
deriving DecidableEq

/-- The check `isinstance(points, np.ndarray)`. -/
def isNdarray : Points → Bool
  | .notArray _ => false
  | _ => true

/-- Model of `abscissa, ordinates = points.T`: transposition reverses the shape, and
unpacking requires the leading dimension to be exactly 2, yielding the two
slices (which share the remaining shape).  A 1-D object-dtype array is its
own transpose and unpacks into its two stored sub-arrays.  A failed
unpacking is the `ValueError` numpy raises there. -/
def splitPoints : Points → Except String (NDArray × NDArray)
  | .regular shape =>
      match shape.reverse with
      | 2 :: rest => .ok (⟨rest⟩, ⟨rest⟩)
      | _ => .error "cannot unpack points"
  | .objectPair a b => .ok (a, b)
  | .notArray _ => .error "cannot unpack points"

/-- Model of `validate_distribution(points, diagram_type, diagram_axis)` from
`tools/visualisation.py`: check the diagram-type argument, the axis
argument, and `isinstance(points, np.ndarray)`, in that order; then split
`points` and check `abscissa.size != ordinates.size` and
`(abscissa.ndim != 1) and (abscissa.ndim != ordinates.ndim)`, raising the
corresponding error messages. -/
def validate_distribution (points : Points) (diagram_type : DiagArg)
    (diagram_axis : AxisArg) : Except String Unit :=
  if !diagArgOk diagram_type then
    .error "Diagram type should be DiagramTypes enum member or list of DiagramTypes"
  else if !axisArgOk diagram_axis then
    .error "Diagram axis should be AxisNames enum member or list of AxisNames"
  else if !isNdarray points then
    .error "Invalid type of points"
  else
    match splitPoints points with
    | .error e => .error e
    | .ok (abscissa, ordinates) =>
      if abscissa.size ≠ ordinates.size then
        .error "The abscissa and ordinates must have the same size"
      else if abscissa.ndim ≠ 1 ∧ abscissa.ndim ≠ ordinates.ndim then
        .error "The abscissa and ordinates must be one-dimensional arrays"
      else .ok ()

/-! ### Global render configuration and its setters -/

/-- A Python runtime value passed to a configuration setter. -/
inductive PyValue : Type
  | int (n : Int)
  | float (q : ℚ)
  | str (s : String)
  | tuple (xs : List PyValue)

/-- The module-level configuration globals of `tools/visualisation.py`.
`hist_range` stores whatever tuple was last assigned, so it is a list of
runtime values. -/
structure Config : Type where
  block_height : Int
  block_width : Int
  plot_color : String
  darker_color : String
  hist_bins : Int
  hist_range : List PyValue

/-- The defaults assigned at module load. -/
def defaultConfig : Config :=
  { block_height := 4
    block_width := 6
    plot_color := "forestgreen"
    darker_color := "green"
    hist_bins := 30
    hist_range := [.int 0, .int 5] }

/-- Model of `set_blockheight(height)`: the pair is the configuration after the call
and the message of the raised `ValueError`, if any (the global is assigned
only when the `isinstance` check passes). -/
def set_blockheight (height : PyValue) (cfg : Config) : Config × Option String :=
  match height with
  | .int n => ({ cfg with block_height := n }, none)
  | _ => (cfg, some "Figure block height must be integer")

/-- Model of `set_blockwidth(width)`. -/
def set_blockwidth (width : PyValue) (cfg : Config) : Config × Option String :=
  match width with
  | .int n => ({ cfg with block_width := n }, none)
  | _ => (cfg, some "Figure block width must be integer")

/-- Model of `set_plotcolor(color)`. -/
def set_plotcolor (color : PyValue) (cfg : Config) : Config × Option String :=
  match color with
  | .str s => ({ cfg with plot_color := s }, none)
  | _ => (cfg, some "Color should be string")

/-- Model of `set_histbins(bins)`. -/
def set_histbins (bins : PyValue) (cfg : Config) : Config × Option String :=
  match bins with
  | .int n => ({ cfg with hist_bins := n }, none)
  | _ => (cfg, some "Bins count must be integer")

/-- Model of `set_range(range)`: any tuple is accepted and stored as is. -/
def set_range (range : PyValue) (cfg : Config) : Config × Option String :=
  match range with
  | .tuple xs => ({ cfg with hist_range := xs }, none)
  | _ => (cfg, some "Range count must be tuple")

/-! ### The visualiser's dispatch -/

/-- The normalisation `diagram_type if isinstance(diagram_type, list) else [diagram_type]`. -/
def normDiag : DiagArg → List DiagItem
  | .single d => [.diag d]
  | .plist xs => xs
  | .other s => [.other s]

/-- The normalisation `diagram_axis if isinstance(diagram_axis, list) else [diagram_axis]`. -/
def normAxis : AxisArg → List AxisItem
  | .single a => [.axis a]
  | .plist xs => xs
  | .other s => [.other s]

/-- The inner `for j, axisName in enumerate(axes)` loop of row `i` drawing
diagram `d`: the list of grid cells it visits. -/
def gridRow (d : DiagItem) (i : Nat) : Nat → List AxisItem → List (DiagItem × Nat × Nat)
  | _, [] => []
  | j, _ :: rest => (d, i, j) :: gridRow d i (j + 1) rest

/-- The outer `for i, diagram in enumerate(diagrams)` loop: the grid cells in
the order they are visited. -/
def gridCells : Nat → List DiagItem → List AxisItem → List (DiagItem × Nat × Nat)
  | _, [], _ => []
  | i, d :: ds, axes => gridRow d i 0 axes ++ gridCells (i + 1) ds axes

/-- Drawing every visited cell in order: a `DiagramTypes` member draws a
subplot at its cell, anything else hits the `case _` branch and raises
`ValueError("Invalid diagram type")`, aborting the loop. -/
def drawCells : List (DiagItem × Nat × Nat) → Except String (List (Nat × Nat))
  | [] => .ok []
  | (d, i, j) :: rest =>
    match d with
    | .diag _ =>
      match drawCells rest with
      | .error e => .error e
      | .ok tail => .ok ((i, j) :: tail)
    | .other _ => .error "Invalid diagram type"

/-- What a successful `visualize_distribution` call hands to matplotlib: the
grid dimensions, the figure size `(ncols * block_width, nrows * block_height)`,
and the subplot cells created, in creation order. -/
structure RenderPlan : Type where
  nrows : Nat
  ncols : Nat
  fig_width : Int
  fig_height : Int
  subplots : List (Nat × Nat)
deriving DecidableEq

/-- Model of `visualize_distribution(points, diagram_type, diagram_axis)` from
`tools/visualisation.py`, reduced to the render plan it produces: validate,
split `points`, normalise both arguments to lists, create a
`nrows × ncols` grid and a figure of size
`(ncols * block_width, nrows * block_height)`, and draw one subplot per
(diagram, axis) pair. -/
def visualize_distribution (points : Points) (diagram_type : DiagArg)
    (diagram_axis : AxisArg) (cfg : Config) : Except String RenderPlan :=
  match validate_distribution points diagram_type diagram_axis with
  | .error e => .error e
  | .ok _ =>
    match splitPoints points with
    | .error e => .error e
    | .ok _ =>
      let diagrams := normDiag diagram_type
      let axes := normAxis diagram_axis
      let ncols := axes.length
      let nrows := diagrams.length
      match drawCells (gridCells 0 diagrams axes) with
      | .error e => .error e
      | .ok subplots =>
        .ok { nrows := nrows
              ncols := ncols
              fig_width := (ncols : Int) * cfg.block_width
              fig_height := (nrows : Int) * cfg.block_height
              subplots := subplots }

/-! ### Helper lemmas -/

lemma percentileOfSorted_const (s : List ℚ) (c : ℚ) (hn : 1 ≤ s.length)
    (hall : ∀ x ∈ s, x = c) {p : ℚ} (hp0 : 0 ≤ p) (hp1 : p ≤ 100) :
    percentileOfSorted s p = c := by
  simp only [percentileOfSorted]
  set N := s.length with hN
  have hNq : (1 : ℚ) ≤ (N : ℚ) := by exact_mod_cast hn
  have hple : ((N : ℚ) - 1) * p / 100 ≤ (N : ℚ) - 1 := by
    have h100 : p / 100 ≤ 1 := by linarith
    have h0 : (0 : ℚ) ≤ (N : ℚ) - 1 := by linarith
    calc ((N : ℚ) - 1) * p / 100 = ((N : ℚ) - 1) * (p / 100) := by ring
      _ ≤ ((N : ℚ) - 1) * 1 := mul_le_mul_of_nonneg_left h100 h0
      _ = (N : ℚ) - 1 := mul_one _
  have hcast : (((N : ℤ) - 1 : ℤ) : ℚ) = (N : ℚ) - 1 := by push_cast; ring
  have hfl : ⌊((N : ℚ) - 1) * p / 100⌋ ≤ (N : ℤ) - 1 := by
    have h := Int.floor_le_floor hple
    have h2 : ⌊(N : ℚ) - 1⌋ = (N : ℤ) - 1 := by
      rw [← hcast, Int.floor_intCast]
    omega
  have hcl : ⌈((N : ℚ) - 1) * p / 100⌉ ≤ (N : ℤ) - 1 := by
    rw [Int.ceil_le, hcast]
    exact hple
  have hlo : (⌊((N : ℚ) - 1) * p / 100⌋).toNat < N := by omega
  have hhi : (⌈((N : ℚ) - 1) * p / 100⌉).toNat < N := by omega
  have hgd : ∀ i, i < N → s.getD i 0 = c := by
    intro i hi
    rw [List.getD_eq_getElem?_getD, List.getElem?_eq_getElem hi]
    exact hall _ (List.getElem_mem hi)
  rw [hgd _ hlo, hgd _ hhi]
  ring

lemma percentile_const (values : List ℚ) (c : ℚ) (hne : values ≠ [])
    (hall : ∀ x ∈ values, x = c) {p : ℚ} (hp0 : 0 ≤ p) (hp1 : p ≤ 100) :
    percentile values p = c := by
  have hperm : List.Perm (values.insertionSort (· ≤ ·)) values :=
    List.perm_insertionSort _ values
  refine percentileOfSorted_const _ c ?_ ?_ hp0 hp1
  · rw [hperm.length_eq]
    exact List.length_pos.2 hne
  · intro x hx
    exact hall x (hperm.mem_iff.1 hx)

/-! ### Theorems about the outlier detector -/

/-- C1: for `data = [1,2,3,4,5,100]` with the identity key,
`get_boxplot_outliers` computes Q1 = 2.25, Q3 = 4.75 (so
`epsilon = 1.5 * (Q3 - Q1) = 3.75` and the fence is `[-1.5, 8.5]`) and
returns exactly the index list `[5]`: only the value 100 lies strictly
outside the fence. -/
theorem get_boxplot_outliers_example :
    percentile [1, 2, 3, 4, 5, 100] 25 = 9 / 4 ∧
    percentile [1, 2, 3, 4, 5, 100] 75 = 19 / 4 ∧
    get_boxplot_outliers [1, 2, 3, 4, 5, 100] (fun x => x) = .ok [5] := by
  have hq1 : percentile [1, 2, 3, 4, 5, 100] 25 = 9 / 4 := by
    have hc : ⌈(5 : ℚ) / 4⌉ = (2 : ℤ) := by
      rw [Int.ceil_eq_iff]
      norm_num
    have h2 : Int.toNat 2 = 2 := rfl
    norm_num [percentile, percentileOfSorted, List.insertionSort,
      List.orderedInsert, hc, h2, List.getElem_cons_succ, List.getElem_cons_zero]
  have hq3 : percentile [1, 2, 3, 4, 5, 100] 75 = 19 / 4 := by
    have hc : ⌈(15 : ℚ) / 4⌉ = (4 : ℤ) := by
      rw [Int.ceil_eq_iff]
      norm_num
    have h3 : Int.toNat 3 = 3 := rfl
    have h4 : Int.toNat 4 = 4 := rfl
    norm_num [percentile, percentileOfSorted, List.insertionSort,
      List.orderedInsert, hc, h3, h4, List.getElem_cons_succ, List.getElem_cons_zero]
  refine ⟨hq1, hq3, ?_⟩
  norm_num [get_boxplot_outliers, List.map, hq1, hq3, List.range_succ,
    List.filter_append, List.filter_cons, List.getD]

/-- C5: called on an empty data sequence, `get_boxplot_outliers` raises
`ValueError("Empty array given")`, whatever the key function. -/
theorem get_boxplot_outliers_empty (α : Type) (key : α → ℚ) :
    get_boxplot_outliers ([] : List α) key = .error "Empty array given" :=
  rfl

/-- C6: on every non-empty data sequence, `get_boxplot_outliers` returns a
list of indices that are all strictly below `len(data)`, strictly
ascending, and hence duplicate-free. -/
theorem get_boxplot_outliers_indices {α : Type} (data : List α) (key : α → ℚ)
    (hne : data ≠ []) :
    ∃ l, get_boxplot_outliers data key = .ok l ∧
      (∀ i ∈ l, i < data.length) ∧ l.Pairwise (· < ·) ∧ l.Nodup := by
  have hlen0 : ¬ data.length = 0 := by
    simpa [List.length_eq_zero] using hne
  have hm : ¬ (data.map key).length = 0 := by
    simpa [List.length_eq_zero] using hne
  simp only [get_boxplot_outliers, if_neg hlen0, if_neg hm]
  refine ⟨_, rfl, ?_, ?_, ?_⟩
  · intro i hi
    have h := List.mem_range.1 (List.mem_filter.1 hi).1
    simpa using h
  · exact List.Pairwise.sublist (List.filter_sublist _) (List.pairwise_lt_range _)
  · exact List.Nodup.sublist (List.filter_sublist _) (List.nodup_range _)

/-- Closed witness for the index-soundness theorem, at `[1, 2, 3]`. -/
theorem get_boxplot_outliers_indices_witness :
    ([1, 2, 3] : List ℚ) ≠ [] ∧
    ∃ l, get_boxplot_outliers ([1, 2, 3] : List ℚ) (fun x => x) = .ok l ∧
      (∀ i ∈ l, i < ([1, 2, 3] : List ℚ).length) ∧ l.Pairwise (· < ·) ∧ l.Nodup :=
  ⟨by simp, get_boxplot_outliers_indices [1, 2, 3] (fun x => x) (by simp)⟩

/-- C7: when every key-derived value is the same (in particular on a
single-element input), Q1 = Q3, so epsilon = 0 and the strict fence test
holds for no element: the returned index list is empty. -/
theorem get_boxplot_outliers_const {α : Type} (data : List α) (key : α → ℚ)
    (c : ℚ) (hne : data ≠ []) (hall : ∀ x ∈ data, key x = c) :
    get_boxplot_outliers data key = .ok [] := by
  have hlen0 : ¬ data.length = 0 := by
    simpa [List.length_eq_zero] using hne
  have hm : ¬ (data.map key).length = 0 := by
    simpa [List.length_eq_zero] using hne
  have hvne : data.map key ≠ [] := by
    simpa [List.length_eq_zero] using hm
  have hvals : ∀ x ∈ data.map key, x = c := by
    intro x hx
    obtain ⟨a, ha, rfl⟩ := List.mem_map.1 hx
    exact hall a ha
  have hq1 : percentile (data.map key) 25 = c :=
    percentile_const _ _ hvne hvals (by norm_num) (by norm_num)
  have hq3 : percentile (data.map key) 75 = c :=
    percentile_const _ _ hvne hvals (by norm_num) (by norm_num)
  simp only [get_boxplot_outliers, if_neg hlen0, if_neg hm, hq1, hq3]
  congr 1
  rw [List.filter_eq_nil_iff]
  intro i hi
  have hilt : i < (data.map key).length := List.mem_range.1 hi
  have hgd : (data.map key).getD i 0 = c := by
    rw [List.getD_eq_getElem?_getD, List.getElem?_eq_getElem hilt]
    exact hvals _ (List.getElem_mem hilt)
  simp only [decide_eq_true_eq, hgd]
  simp

/-- Closed witness for the identical-values theorem, at `[7, 7, 7]`. -/
theorem get_boxplot_outliers_const_witness :
    ([7, 7, 7] : List ℚ) ≠ [] ∧ (∀ x ∈ ([7, 7, 7] : List ℚ), (fun y => y) x = 7) ∧
    get_boxplot_outliers ([7, 7, 7] : List ℚ) (fun y => y) = .ok [] := by
  refine ⟨by simp, ?_, ?_⟩
  · intro x hx
    simpa using hx
  · exact get_boxplot_outliers_const [7, 7, 7] (fun y => y) 7 (by simp)
      (by intro x hx; simpa using hx)

/-! ### Helper lemmas about the dispatch grid -/

lemma gridRow_length (d : DiagItem) (i : Nat) :
    ∀ (j : Nat) (axes : List AxisItem), (gridRow d i j axes).length = axes.length := by
  intro j axes
  induction axes generalizing j with
  | nil => rfl
  | cons a rest ih => simp [gridRow, ih]

lemma gridCells_length :
    ∀ (i : Nat) (ds : List DiagItem) (axes : List AxisItem),
      (gridCells i ds axes).length = ds.length * axes.length := by
  intro i ds
  induction ds generalizing i with
  | nil =>
    intro axes
    simp [gridCells]
  | cons d rest ih =>
    intro axes
    simp [gridCells, gridRow_length, ih]
    ring

lemma gridRow_fst (d : DiagItem) (i : Nat) :
    ∀ (j : Nat) (axes : List AxisItem) (c : DiagItem × Nat × Nat),
      c ∈ gridRow d i j axes → c.1 = d := by
  intro j axes
  induction axes generalizing j with
  | nil =>
    intro c hc
    simp [gridRow] at hc
  | cons a rest ih =>
    intro c hc
    rcases List.mem_cons.1 (by simpa [gridRow] using hc) with h | h
    · rw [h]
    · exact ih _ _ h

lemma gridCells_fst :
    ∀ (i : Nat) (ds : List DiagItem) (axes : List AxisItem) (c : DiagItem × Nat × Nat),
      c ∈ gridCells i ds axes → c.1 ∈ ds := by
  intro i ds
  induction ds generalizing i with
  | nil =>
    intro axes c hc
    simp [gridCells] at hc
  | cons d rest ih =>
    intro axes c hc
    rcases List.mem_append.1 (by simpa [gridCells] using hc) with h | h
    · rw [gridRow_fst d i 0 axes c h]
      exact List.mem_cons_self _ _
    · exact List.mem_cons_of_mem _ (ih _ _ _ h)

lemma drawCells_ok :
    ∀ cells : List (DiagItem × Nat × Nat),
      (∀ c ∈ cells, isDiagramTypes c.1 = true) →
      drawCells cells = .ok (cells.map (fun c => c.2)) := by
  intro cells
  induction cells with
  | nil =>
    intro _
    rfl
  | cons c rest ih =>
    intro h
    obtain ⟨d, i, j⟩ := c
    have hd : isDiagramTypes d = true := h _ (List.mem_cons_self _ _)
    cases d with
    | diag dd =>
      have htail := ih (fun c hc => h c (List.mem_cons_of_mem _ hc))
      simp [drawCells, htail]
    | other s => simp [isDiagramTypes] at hd

lemma normDiag_ok {dt : DiagArg} (h : diagArgOk dt = true) :
    ∀ x ∈ normDiag dt, isDiagramTypes x = true := by
  intro x hx
  cases dt with
  | single d =>
    simp [normDiag] at hx
    rw [hx]
    rfl
  | plist xs =>
    simp only [diagArgOk, List.all_eq_true] at h
    exact h x (by simpa [normDiag] using hx)
  | other s => simp [diagArgOk] at h

/-! ### Theorems about the validator -/

/-- C2 (code bug in the source): the dimension check
`(abscissa.ndim != 1) and (abscissa.ndim != ordinates.ndim)` never fires for
the slices of a regular array, because they always share one ndim.  A 3-D
points array of shape `(3, 4, 2)` splits into two 2-D slices, yet
`validate_distribution` accepts it instead of raising the advertised
dimension error. -/
theorem validate_distribution_multidim_accepted :
    ∃ a b : NDArray, splitPoints (.regular [3, 4, 2]) = .ok (a, b) ∧
      a.ndim = 2 ∧ b.ndim = 2 ∧
      validate_distribution (.regular [3, 4, 2]) (.single .Violin) (.single .X) =
        .ok () :=
  ⟨⟨[4, 3]⟩, ⟨[4, 3]⟩, rfl, rfl, rfl, rfl⟩

/-- C3 counterexample: the empty list passes the diagram-type check
(`all` over an empty list is vacuously true), so `validate_distribution`
accepts it rather than raising the type error the claim expects. -/
theorem validate_distribution_empty_list_accepted :
    validate_distribution (.regular [3, 2]) (.plist []) (.single .X) = .ok () :=
  rfl

/-- C3 amended: an argument that is neither a `DiagramTypes` member nor a
list all of whose elements are `DiagramTypes` members is rejected with the
diagram-type error; a list of members of any length — including the empty
list — passes the check. -/
theorem validate_distribution_diagram_type_check :
    (∀ (p : Points) (dt : DiagArg) (da : AxisArg),
      diagArgOk dt = false →
      validate_distribution p dt da =
        .error "Diagram type should be DiagramTypes enum member or list of DiagramTypes") ∧
    (∀ d, diagArgOk (.single d) = true) ∧
    (∀ xs : List DiagItem, diagArgOk (.plist xs) = xs.all isDiagramTypes) ∧
    (∀ s, diagArgOk (.other s) = false) ∧
    diagArgOk (.plist []) = true := by
  refine ⟨?_, fun d => rfl, fun xs => rfl, fun s => rfl, rfl⟩
  intro p dt da h
  simp [validate_distribution, h]

/-- Closed witness for the diagram-type check, at a plain-string argument. -/
theorem validate_distribution_diagram_type_check_witness :
    validate_distribution (.regular [3, 2]) (.other "a plain string") (.single .X) =
      .error "Diagram type should be DiagramTypes enum member or list of DiagramTypes" :=
  validate_distribution_diagram_type_check.1 _ _ _ rfl

/-- C4: there is an ndarray `points` whose two slices have different sizes
(an object-dtype array of two ragged columns), and whenever the slices'
sizes differ and the other checks pass, `validate_distribution` raises
`ShapeMismatchError("The abscissa and ordinates must have the same size")`. -/
theorem validate_distribution_shape_mismatch :
    (∃ p : Points, isNdarray p = true ∧
      (∃ a b : NDArray, splitPoints p = .ok (a, b) ∧ a.size ≠ b.size) ∧
      validate_distribution p (.single .Violin) (.single .X) =
        .error "The abscissa and ordinates must have the same size") ∧
    (∀ (p : Points) (dt : DiagArg) (da : AxisArg) (a b : NDArray),
      diagArgOk dt = true → axisArgOk da = true →
      splitPoints p = .ok (a, b) → a.size ≠ b.size →
      validate_distribution p dt da =
        .error "The abscissa and ordinates must have the same size") := by
  constructor
  · exact ⟨.objectPair ⟨[3]⟩ ⟨[2]⟩, rfl, ⟨⟨[3]⟩, ⟨[2]⟩, rfl, by decide⟩, rfl⟩
  · intro p dt da a b hdt hda hsplit hsize
    have hnd : isNdarray p = true := by
      cases p with
      | regular shape => rfl
      | objectPair x y => rfl
      | notArray s => simp [splitPoints] at hsplit
    simp [validate_distribution, hdt, hda, hnd, hsplit, hsize]

/-- Closed witness for the shape-mismatch theorem, at columns of sizes 4
and 7. -/
theorem validate_distribution_shape_mismatch_witness :
    validate_distribution (.objectPair ⟨[4]⟩ ⟨[7]⟩) (.single .Hist) (.single .Y) =
      .error "The abscissa and ordinates must have the same size" :=
  validate_distribution_shape_mismatch.2 _ _ _ ⟨[4]⟩ ⟨[7]⟩ rfl rfl rfl (by decide)

/-! ### Theorems about the visualiser's grid -/

/-- C8: every validated call draws an `nrows × ncols` grid with
`nrows` the number of requested diagram types and `ncols` the number of
requested axis names (single values counting as one), on a canvas of
`ncols * block_width` by `nrows * block_height`, with exactly
`nrows * ncols` subplots; a single type with a single axis yields one
subplot, and two types with two axes yield four subplots arranged 2×2. -/
theorem visualize_distribution_grid :
    (∀ (p : Points) (dt : DiagArg) (da : AxisArg) (cfg : Config),
      validate_distribution p dt da = .ok () →
      ∃ plan, visualize_distribution p dt da cfg = .ok plan ∧
        plan.nrows = (normDiag dt).length ∧
        plan.ncols = (normAxis da).length ∧
        plan.fig_width = ((normAxis da).length : Int) * cfg.block_width ∧
        plan.fig_height = ((normDiag dt).length : Int) * cfg.block_height ∧
        plan.subplots.length = (normDiag dt).length * (normAxis da).length) ∧
    visualize_distribution (.regular [3, 2]) (.single .Violin) (.single .X)
      defaultConfig = .ok ⟨1, 1, 6, 4, [(0, 0)]⟩ ∧
    visualize_distribution (.regular [3, 2])
      (.plist [.diag .Violin, .diag .Hist]) (.plist [.axis .X, .axis .Y])
      defaultConfig = .ok ⟨2, 2, 12, 8, [(0, 0), (0, 1), (1, 0), (1, 1)]⟩ := by
  refine ⟨?_, rfl, rfl⟩
  intro p dt da cfg hval
  have hdt : diagArgOk dt = true := by
    cases h : diagArgOk dt
    · simp [validate_distribution, h] at hval
    · rfl
  have hda : axisArgOk da = true := by
    cases h : axisArgOk da
    · simp [validate_distribution, hdt, h] at hval
    · rfl
  have hnd : isNdarray p = true := by
    cases h : isNdarray p
    · simp [validate_distribution, hdt, hda, h] at hval
    · rfl
  rcases hs : splitPoints p with e | ⟨a, b⟩
  · simp [validate_distribution, hdt, hda, hnd, hs] at hval
  · have hall : ∀ c ∈ gridCells 0 (normDiag dt) (normAxis da),
        isDiagramTypes c.1 = true :=
      fun c hc => normDiag_ok hdt _ (gridCells_fst _ _ _ _ hc)
    have hdraw := drawCells_ok _ hall
    have hviz : visualize_distribution p dt da cfg = .ok
        { nrows := (normDiag dt).length
          ncols := (normAxis da).length
          fig_width := ((normAxis da).length : Int) * cfg.block_width
          fig_height := ((normDiag dt).length : Int) * cfg.block_height
          subplots := (gridCells 0 (normDiag dt) (normAxis da)).map
            (fun c => c.2) } := by
      simp only [visualize_distribution, hval, hs, hdraw]
    refine ⟨_, hviz, rfl, rfl, rfl, rfl, ?_⟩
    simp [gridCells_length]

/-- Closed witness for the grid theorem, at one diagram type and two axes. -/
theorem visualize_distribution_grid_witness :
    ∃ plan, visualize_distribution (.regular [5, 2]) (.single .Boxplot)
        (.plist [.axis .X, .axis .Y]) defaultConfig = .ok plan ∧
      plan.nrows = (normDiag (.single .Boxplot)).length ∧
      plan.ncols = (normAxis (.plist [.axis .X, .axis .Y])).length ∧
      plan.fig_width =
        ((normAxis (.plist [.axis .X, .axis .Y])).length : Int) *
          defaultConfig.block_width ∧
      plan.fig_height =
        ((normDiag (.single .Boxplot)).length : Int) * defaultConfig.block_height ∧
      plan.subplots.length =
        (normDiag (.single .Boxplot)).length *
          (normAxis (.plist [.axis .X, .axis .Y])).length :=
  visualize_distribution_grid.1 _ _ _ _ rfl

/-! ### Theorems about the configuration setters -/

/-- C9: each setter rejects an argument of the wrong runtime type with a
`ValueError` naming the expected type while leaving every configuration
field untouched, and on a well-typed argument overwrites exactly its own
field; in particular `set_histbins(10.5)` raises and leaves the prior
configuration unchanged. -/
theorem setters_spec (cfg : Config) (v : PyValue) :
    ((∀ n, v ≠ .int n) →
      set_blockheight v cfg = (cfg, some "Figure block height must be integer")) ∧
    ((∀ n, v ≠ .int n) →
      set_blockwidth v cfg = (cfg, some "Figure block width must be integer")) ∧
    ((∀ s, v ≠ .str s) →
      set_plotcolor v cfg = (cfg, some "Color should be string")) ∧
    ((∀ n, v ≠ .int n) →
      set_histbins v cfg = (cfg, some "Bins count must be integer")) ∧
    ((∀ xs, v ≠ .tuple xs) →
      set_range v cfg = (cfg, some "Range count must be tuple")) ∧
    (∀ n, set_blockheight (.int n) cfg = ({ cfg with block_height := n }, none)) ∧
    (∀ n, set_blockwidth (.int n) cfg = ({ cfg with block_width := n }, none)) ∧
    (∀ s, set_plotcolor (.str s) cfg = ({ cfg with plot_color := s }, none)) ∧
    (∀ n, set_histbins (.int n) cfg = ({ cfg with hist_bins := n }, none)) ∧
    (∀ xs, set_range (.tuple xs) cfg = ({ cfg with hist_range := xs }, none)) ∧
    set_histbins (.float (21 / 2)) cfg = (cfg, some "Bins count must be integer") := by
  refine ⟨?_, ?_, ?_, ?_, ?_, fun n => rfl, fun n => rfl, fun s => rfl,
    fun n => rfl, fun xs => rfl, rfl⟩
  · intro h
    cases v with
    | int n => exact absurd rfl (h n)
    | float q => rfl
    | str s => rfl
    | tuple xs => rfl
  · intro h
    cases v with
    | int n => exact absurd rfl (h n)
    | float q => rfl
    | str s => rfl
    | tuple xs => rfl
  · intro h
    cases v with
    | int n => rfl
    | float q => rfl
    | str s => exact absurd rfl (h s)
    | tuple xs => rfl
  · intro h
    cases v with
    | int n => exact absurd rfl (h n)
    | float q => rfl
    | str s => rfl
    | tuple xs => rfl
  · intro h
    cases v with
    | int n => rfl
    | float q => rfl
    | str s => rfl
    | tuple xs => exact absurd rfl (h xs)

/-- Closed witness for the setter theorem: a string rejected by
`set_blockheight`, leaving the default configuration unchanged. -/
theorem setters_spec_witness :
    set_blockheight (.str "oops") defaultConfig =
      (defaultConfig, some "Figure block height must be integer") :=
  (setters_spec defaultConfig (.str "oops")).1
    (fun n hn => PyValue.noConfusion hn)

/-- C10: `set_range` accepts every tuple whatever its arity or element
types — including the empty tuple and a tuple of three strings — storing it
unchanged in `hist_range`, and raises only for non-tuple arguments. -/
theorem set_range_spec (cfg : Config) :
    (∀ xs, set_range (.tuple xs) cfg = ({ cfg with hist_range := xs }, none)) ∧
    set_range (.tuple []) cfg = ({ cfg with hist_range := [] }, none) ∧
    set_range (.tuple [.str "a", .str "b", .str "c"]) cfg =
      ({ cfg with hist_range := [.str "a", .str "b", .str "c"] }, none) ∧
    (∀ v, (∀ xs, v ≠ .tuple xs) →
      set_range v cfg = (cfg, some "Range count must be tuple")) := by
  refine ⟨fun xs => rfl, rfl, rfl, ?_⟩
  intro v h
  cases v with
  | int n => rfl
  | float q => rfl
  | str s => rfl
  | tuple xs => exact absurd rfl (h xs)

/-- Closed witness for the `set_range` theorem: an integer argument is
rejected. -/
theorem set_range_spec_witness :
    set_range (.int 3) defaultConfig =
      (defaultConfig, some "Range count must be tuple") :=
  (set_range_spec defaultConfig).2.2.2 (.int 3)
    (fun xs hxs => PyValue.noConfusion hxs)

end MiptStat
